import Mathlib

/-!
Shallow embedding of `src/js/script.js` (NASA space explorer page script).

The script has three components operating on a fixed DOM:
  * a fact picker (`showRandomFact`) run once at load,
  * a modal controller (`openModal` / `closeModal` / keydown listener),
  * a gallery loader (the `getImageBtn` click handler).

We model the DOM regions the script touches as an explicit `PageState`
record and each event handler as a pure state transformer.  JavaScript
values that may be `undefined` are modelled as `Option String`; the
JavaScript `a || b` fallback on strings (where both `undefined` and the
empty string are falsy) is modelled by `jsOr`.
-/

namespace SpaceExplorer

/-- A Picture Record: one element of the fetched APOD JSON array.
All fields are optional, as the script treats every access defensively. -/
structure Item where
  media_type : Option String := none
  url : Option String := none
  hdurl : Option String := none
  thumbnail_url : Option String := none
  title : Option String := none
  date : Option String := none
  explanation : Option String := none
deriving DecidableEq, Repr

/-- JavaScript `a || b` for a possibly-undefined string `a`:
`undefined` and the empty string are falsy, anything else is returned. -/
def jsOr (a : Option String) (b : String) : String :=
  match a with
  | none => b
  | some s => if s = "" then b else s

/-- One gallery tile, as assembled in the `data.forEach` loop
(lines 196-240 of the script): a `div.gallery-item` holding an optional
play-overlay `span`, an `img`, an `h3` title and a `p.date`, with a click
handler that opens the modal on the captured record. -/
structure Tile where
  playOverlay : Bool
  imgSrc : String
  imgAlt : String
  titleText : String
  dateText : String
  clickItem : Item
deriving DecidableEq, Repr

/-- Build one tile from a record, mirroring the loop body. -/
def buildTile (item : Item) : Tile :=
  -- const isVideo = item.media_type && item.media_type === 'video';
  let isVideo := decide (item.media_type = some "video")
  { playOverlay := isVideo
    -- const imgSrc = isVideo ? (item.thumbnail_url || item.url || '') : (item.url || '');
    imgSrc := if isVideo then jsOr item.thumbnail_url (jsOr item.url "")
              else jsOr item.url ""
    imgAlt := jsOr item.title "Space image"
    titleText := jsOr item.title "Untitled"
    dateText := jsOr item.date ""
    clickItem := item }

/-- Content of the gallery region: either raw markup set through
`innerHTML`, or the list of appended tiles (after `innerHTML = ''`). -/
inductive GalleryContent where
  | markup (html : String)
  | tileList (tiles : List Tile)
deriving DecidableEq, Repr

/-- Number of tiles in the gallery region. -/
def GalleryContent.tileCount : GalleryContent → Nat
  | .markup _ => 0
  | .tileList ts => ts.length

/-- The loading placeholder written at the start of the click handler. -/
def loadingMarkup : String := "<p class=\"loading\">🔄 Loading space photos…</p>"

/-- The message shown when the parsed value is not a non-empty array. -/
def noImagesMarkup : String := "<p>No images found.</p>"

/-- The markup written on a caught error (`error.message` interpolated). -/
def errorMarkup (msg : String) : String :=
  "<p class=\"error\">Error loading images: " ++ msg ++ "</p>"

/-- Message of the error thrown on a non-ok HTTP response. -/
def httpErrorMsg (status : Nat) : String :=
  "Network response was not ok (" ++ toString status ++ ")"

/-- The console entry logged in the catch block
(`console.error('Failed to load APOD data:', error)`). -/
def consoleEntry (msg : String) : String :=
  "Failed to load APOD data: " ++ msg

/-- `Response.ok` per the fetch specification: status in the 2xx range. -/
def respOk (status : Nat) : Bool := 200 ≤ status && status ≤ 299

/-- Result of parsing the response body with `response.json()`:
either a JSON array of records, or some non-array JSON value. -/
inductive JsonBody where
  | nonArray
  | array (items : List Item)
deriving DecidableEq, Repr

/-- Outcome of `await fetch(...)` followed by `await response.json()`:
`failure msg` covers a rejected fetch (network error) or a body that is
not valid JSON, with `msg` the thrown error's message; `response` carries
the HTTP status and, when the status is consulted, the parsed body. -/
inductive FetchResult where
  | failure (msg : String)
  | response (status : Nat) (body : JsonBody)
deriving DecidableEq, Repr

/-- The fact display section (`section#did-you-know`): an `h2` heading and
a `p` for the fact text; `beforeGallery` records whether it was inserted
before the gallery or at the top of the body. -/
structure FactSection where
  headingText : String
  paraText : Option String
  beforeGallery : Bool
deriving DecidableEq, Repr

/-- State of the modal overlay region and its nested elements. -/
structure ModalState where
  /-- The `aria-hidden` attribute on `#modal` (`none` = never set). -/
  ariaHidden : Option String := none
  /-- `src` of each `iframe#modal-video` in the document, in document
  order.  `document.getElementById` returns the first. -/
  videoEmbeds : List String := []
  /-- `style.display` of `#modal-image` (`""` or `"none"`). -/
  imageDisplay : String := ""
  imageSrc : String := ""
  imageAlt : String := ""
  titleText : String := ""
  dateText : String := ""
  explanationText : String := ""
deriving DecidableEq, Repr

/-- The page state touched by the script. -/
structure PageState where
  gallery : GalleryContent := .markup ""
  modal : ModalState := {}
  /-- `document.body.style.overflow`. -/
  bodyOverflow : String := ""
  /-- Elements with id `did-you-know`, in document order. -/
  factSections : List FactSection := []
  /-- Id of the currently focused element, if the script moved focus. -/
  focused : Option String := none
  /-- Console diagnostic entries, oldest first. -/
  log : List String := []
deriving DecidableEq, Repr

/-- The page state before the script has run. -/
def initialPage : PageState := {}

/-- Which optional DOM collaborators exist (the module-level
`getElementById` / `querySelector` lookups, lines 7-9 and 72-78). -/
structure DomEnv where
  modal : Bool
  modalImage : Bool
  modalTitle : Bool
  modalDate : Bool
  modalExplanation : Bool
  modalCloseBtn : Bool
deriving DecidableEq, Repr

/-- The `getImageBtn` click handler (lines 170-247).  `hasGallery` is the
`gallery` lookup; the handler returns immediately when it is null.  The
final state collapses the intermediate loading placeholder: on failure
the thrown error is caught, the error markup written and the error
logged; on a non-array or empty body the no-images markup is written; on
a non-empty array the gallery is cleared and one tile appended per
record, in order. -/
def getImageBtnClick (hasGallery : Bool) (r : FetchResult) (s : PageState) :
    PageState :=
  if hasGallery = false then s else
  match r with
  | .failure msg =>
      { s with gallery := .markup (errorMarkup msg)
               log := s.log ++ [consoleEntry msg] }
  | .response status body =>
      if respOk status = false then
        -- throw new Error(`Network response was not ok (...)`) → catch
        { s with gallery := .markup (errorMarkup (httpErrorMsg status))
                 log := s.log ++ [consoleEntry (httpErrorMsg status)] }
      else
        match body with
        | .nonArray => { s with gallery := .markup noImagesMarkup }
        | .array items =>
            if items.isEmpty then { s with gallery := .markup noImagesMarkup }
            else { s with gallery := .tileList (items.map buildTile) }

/-- First record of the spec's two-record example response. -/
def recA : Item :=
  { title := some "A", date := some "2020-01-01", url := some "u1",
    media_type := some "image" }

/-- Second record of the spec's two-record example response. -/
def recB : Item :=
  { title := some "B", url := some "u2", media_type := some "video",
    thumbnail_url := some "t2" }

/-- `openModal(item)` (lines 81-128).  `item?` is the argument (possibly
nothing); the function returns at once when the item or the `#modal`
element is missing.  Any existing `iframe#modal-video` (the first, as
found by `getElementById`) is removed; on a video record the image is
hidden and a fresh iframe sourced from `url || thumbnail_url || ''` is
inserted right after the image (or appended to the modal when the image
element is missing); otherwise the image is shown and its `src`/`alt` set
with the `hdurl || url || ''` and `title || 'Space image'` fallbacks.
Title, date and explanation are filled with their fallbacks, the modal is
unhidden, background scroll disabled and focus moved to the close
control when it exists. -/
def openModal (env : DomEnv) (item? : Option Item) (s : PageState) : PageState :=
  match item? with
  | none => s
  | some item =>
    if env.modal = false then s else
    -- const previousIframe = document.getElementById('modal-video');
    -- if (previousIframe) previousIframe.remove();
    let m0 := { s.modal with videoEmbeds := s.modal.videoEmbeds.tail }
    let m1 :=
      if item.media_type = some "video" then
        let src := jsOr item.url (jsOr item.thumbnail_url "")
        if env.modalImage then
          -- hide the image, insert the iframe right after it (newest first)
          { m0 with imageDisplay := "none", videoEmbeds := src :: m0.videoEmbeds }
        else
          { m0 with videoEmbeds := m0.videoEmbeds ++ [src] }
      else
        if env.modalImage then
          { m0 with imageDisplay := ""
                    imageSrc := jsOr item.hdurl (jsOr item.url "")
                    imageAlt := jsOr item.title "Space image" }
        else m0
    -- if (modalTitle) ... / if (modalDate) ... / if (modalExplanation) ...
    let m2 :=
      { m1 with
        titleText := if env.modalTitle then jsOr item.title "Untitled" else m1.titleText
        dateText := if env.modalDate then jsOr item.date "" else m1.dateText
        explanationText :=
          if env.modalExplanation then jsOr item.explanation "" else m1.explanationText
        ariaHidden := some "false" }
    { s with modal := m2
             bodyOverflow := "hidden"
             focused := if env.modalCloseBtn then some "modal-close" else s.focused }

/-- `closeModal()` (lines 131-146): no-op when `#modal` is missing;
otherwise hides the modal, removes any `iframe#modal-video`, clears and
re-shows the image and restores background scrolling. -/
def closeModal (env : DomEnv) (s : PageState) : PageState :=
  if env.modal = false then s else
  let m0 := { s.modal with ariaHidden := some "true"
                           videoEmbeds := s.modal.videoEmbeds.tail }
  -- if (modalImage) { modalImage.src = ''; modalImage.style.display = ''; }
  let m1 := { m0 with imageSrc := if env.modalImage then "" else m0.imageSrc
                      imageDisplay := if env.modalImage then "" else m0.imageDisplay }
  { s with modal := m1, bodyOverflow := "" }

/-- The window `keydown` listener (lines 162-167): closes the modal on
Escape only when `#modal` exists and its `aria-hidden` attribute equals
`"false"`. -/
def onKeydown (env : DomEnv) (key : String) (s : PageState) : PageState :=
  if env.modal = false then s
  else if key = "Escape" ∧ s.modal.ariaHidden = some "false" then closeModal env s
  else s

/-- The ten fact strings (lines 13-24). -/
def spaceFacts : List String :=
  [ "Venus spins backward compared to most planets — the Sun rises in the west there.",
    "A day on Venus (one rotation) is longer than a year on Venus (one orbit).",
    "Neutron stars are so dense that a teaspoon of their material would weigh about a billion tons on Earth.",
    "Jupiter's Great Red Spot is a gigantic storm larger than Earth that has raged for centuries.",
    "There are more stars in the observable universe than grains of sand on all Earth's beaches combined.",
    "Saturn could float in water because its average density is less than water.",
    "The largest volcano in the solar system is Olympus Mons on Mars — it's about three times taller than Mount Everest.",
    "Light from the Sun takes about 8 minutes and 20 seconds to reach Earth.",
    "A year on Mercury only lasts 88 Earth days.",
    "The Moon is slowly moving away from Earth at about 3.8 centimeters per year." ]

/-- `Math.floor(r * len)` for a draw `r` of `Math.random()`. -/
def factIndex (r : ℚ) (len : Nat) : Nat := (⌊r * len⌋).toNat

/-- `spaceFacts[idx] || 'Space is full of surprises!'` at index `i`: the
indexed fact, falling back to the default when the access is undefined
or the string is empty (both falsy in JS). -/
def pickedFactAt (i : Nat) : String :=
  match spaceFacts.get? i with
  | some f => if f = "" then "Space is full of surprises!" else f
  | none => "Space is full of surprises!"

/-- The fact text displayed for a draw `r` of `Math.random()`. -/
def pickedFact (r : ℚ) : String :=
  pickedFactAt (factIndex r spaceFacts.length)

/-- `showRandomFact()` (lines 26-66).  `hasGallery` is whether the
`gallery` lookup succeeded (and, being in the document, has a parent).
If no `#did-you-know` element exists, one is created with an `h2` and a
`p` and inserted before the gallery (or at the top of the body);
otherwise the existing first one is reused.  Then
`querySelector('p') || appendChild(p)` obtains the paragraph and its text
is set to the picked fact. -/
def showRandomFact (hasGallery : Bool) (r : ℚ) (s : PageState) : PageState :=
  let secs :=
    if s.factSections.isEmpty then
      [{ headingText := "Did you know?", paraText := some "",
         beforeGallery := hasGallery : FactSection }]
    else s.factSections
  let secs' :=
    match secs with
    | [] => []
    | fs :: rest => { fs with paraText := some (pickedFact r) } :: rest
  { s with factSections := secs' }

/-- One modal-controller operation, for reasoning about sequences of
`openModal` / `closeModal` calls. -/
inductive MOp where
  | openOp (item? : Option Item)
  | closeOp
deriving DecidableEq, Repr

/-- Apply one modal-controller operation. -/
def applyMOp (env : DomEnv) (s : PageState) : MOp → PageState
  | .openOp it => openModal env it s
  | .closeOp => closeModal env s

/-- Run a finite sequence of modal-controller operations, oldest first. -/
def runMOps (env : DomEnv) (s : PageState) : List MOp → PageState
  | [] => s
  | op :: ops => runMOps env (applyMOp env s op) ops

/-- An environment in which every optional DOM collaborator exists. -/
def envAll : DomEnv :=
  { modal := true, modalImage := true, modalTitle := true, modalDate := true,
    modalExplanation := true, modalCloseBtn := true }

/-- An environment in which the `#modal` element is missing. -/
def envNoModal : DomEnv :=
  { modal := false, modalImage := true, modalTitle := true, modalDate := true,
    modalExplanation := true, modalCloseBtn := true }

/-- The spec's hdurl-precedence example record. -/
def recHd : Item := { hdurl := some "hd.jpg", url := some "u.jpg" }

/-- The spec's video example record. -/
def recVid : Item := { media_type := some "video", url := some "https://embed/x" }

/-- A page whose modal is in the visible state (`aria-hidden="false"`). -/
def visiblePage : PageState := { modal := { ariaHidden := some "false" } }

/-! ## Theorems -/

/-- C1: for every response parsing to a non-empty array, the handler
renders one tile per record, in the order of the array, and a tile has
the play-overlay marker iff its record's `media_type` is `"video"`. -/
theorem gallery_renders_tiles_in_order (status : Nat) (items : List Item)
    (s : PageState) (hok : respOk status = true) (hne : items ≠ []) :
    (getImageBtnClick true (.response status (.array items)) s).gallery
      = .tileList (items.map buildTile)
    ∧ (items.map buildTile).length = items.length
    ∧ ∀ i : Nat,
        ((items.map buildTile)[i]?.map fun t => t.playOverlay)
          = (items[i]?.map fun it => decide (it.media_type = some "video")) := by
  refine ⟨?_, by simp, ?_⟩
  · simp [getImageBtnClick, hok, List.isEmpty_iff, hne]
  · intro i
    simp only [List.getElem?_map, Option.map_map]
    cases items[i]? <;> simp [buildTile]

/-- Witness for C1: the two-record example response renders exactly two
tiles in order, with the play marker on the second only. -/
theorem gallery_renders_tiles_in_order_witness :
    (getImageBtnClick true (.response 200 (.array [recA, recB])) initialPage).gallery
      = .tileList [buildTile recA, buildTile recB]
    ∧ (buildTile recA).playOverlay = false
    ∧ (buildTile recB).playOverlay = true :=
  ⟨(gallery_renders_tiles_in_order 200 [recA, recB] initialPage (by decide)
      (by decide)).1,
   by decide, by decide⟩

/-- C2: a failed fetch or a non-2xx status leaves an error markup that
literally contains the failure's message, zero tiles, and a console log
entry; a non-array or empty-array body leaves the "No images found."
markup, zero tiles, and no log entry. -/
theorem gallery_error_and_empty_paths (s : PageState) (msg : String)
    (stBad stOk : Nat) (bodyB : JsonBody)
    (hbad : respOk stBad = false) (hok : respOk stOk = true) :
    ((getImageBtnClick true (.failure msg) s).gallery = .markup (errorMarkup msg)
      ∧ (getImageBtnClick true (.failure msg) s).gallery.tileCount = 0
      ∧ (getImageBtnClick true (.failure msg) s).log = s.log ++ [consoleEntry msg]
      ∧ ∃ pre post : String, errorMarkup msg = pre ++ msg ++ post)
    ∧ ((getImageBtnClick true (.response stBad bodyB) s).gallery
          = .markup (errorMarkup (httpErrorMsg stBad))
      ∧ (getImageBtnClick true (.response stBad bodyB) s).gallery.tileCount = 0
      ∧ (getImageBtnClick true (.response stBad bodyB) s).log
          = s.log ++ [consoleEntry (httpErrorMsg stBad)])
    ∧ ((getImageBtnClick true (.response stOk .nonArray) s).gallery
          = .markup noImagesMarkup
      ∧ (getImageBtnClick true (.response stOk .nonArray) s).gallery.tileCount = 0
      ∧ (getImageBtnClick true (.response stOk .nonArray) s).log = s.log)
    ∧ ((getImageBtnClick true (.response stOk (.array [])) s).gallery
          = .markup noImagesMarkup
      ∧ (getImageBtnClick true (.response stOk (.array [])) s).gallery.tileCount = 0
      ∧ (getImageBtnClick true (.response stOk (.array [])) s).log = s.log) := by
  refine ⟨⟨?_, ?_, ?_, ⟨"<p class=\"error\">Error loading images: ", "</p>", rfl⟩⟩,
    ⟨?_, ?_, ?_⟩, ⟨?_, ?_, ?_⟩, ⟨?_, ?_, ?_⟩⟩ <;>
    simp [getImageBtnClick, hbad, hok, GalleryContent.tileCount, errorMarkup]

/-- Witness for C2: a 404 response yields the error markup mentioning
status 404 and no tiles; an empty-array 200 response yields the
"No images found." markup with an unchanged log. -/
theorem gallery_error_and_empty_paths_witness :
    ((getImageBtnClick true (.response 404 .nonArray) initialPage).gallery
        = .markup (errorMarkup (httpErrorMsg 404))
      ∧ (getImageBtnClick true (.response 404 .nonArray) initialPage).gallery.tileCount
        = 0)
    ∧ ((getImageBtnClick true (.response 200 (.array [])) initialPage).gallery
        = .markup noImagesMarkup
      ∧ (getImageBtnClick true (.response 200 (.array [])) initialPage).log
        = initialPage.log) :=
  ⟨⟨((gallery_error_and_empty_paths initialPage "network down" 404 200 .nonArray
        (by decide) (by decide)).2.1).1,
    ((gallery_error_and_empty_paths initialPage "network down" 404 200 .nonArray
        (by decide) (by decide)).2.1).2.1⟩,
   ⟨((gallery_error_and_empty_paths initialPage "network down" 404 200 .nonArray
        (by decide) (by decide)).2.2.2).1,
    ((gallery_error_and_empty_paths initialPage "network down" 404 200 .nonArray
        (by decide) (by decide)).2.2.2).2.2⟩⟩

/-- C3: opening the modal on a video record hides the static image and
inserts a video embed sourced from `url`, falling back to
`thumbnail_url`, else empty; closing afterwards removes the embed,
restores the image's visibility and clears its source. -/
theorem open_video_then_close (env : DomEnv) (item : Item) (s : PageState)
    (hm : env.modal = true) (hi : env.modalImage = true)
    (hv : item.media_type = some "video")
    (hemb : s.modal.videoEmbeds.tail = []) :
    (openModal env (some item) s).modal.imageDisplay = "none"
    ∧ (openModal env (some item) s).modal.videoEmbeds
        = [jsOr item.url (jsOr item.thumbnail_url "")]
    ∧ (closeModal env (openModal env (some item) s)).modal.videoEmbeds = []
    ∧ (closeModal env (openModal env (some item) s)).modal.imageDisplay = ""
    ∧ (closeModal env (openModal env (some item) s)).modal.imageSrc = "" := by
  refine ⟨?_, ?_, ?_, ?_, ?_⟩ <;>
    simp [openModal, closeModal, hm, hi, hv, hemb]

/-- Witness for C3: the spec's video example record, in a full
environment, yields an embed sourced from `https://embed/x` with the
image hidden, and close removes it. -/
theorem open_video_then_close_witness :
    (openModal envAll (some recVid) initialPage).modal.imageDisplay = "none"
    ∧ (openModal envAll (some recVid) initialPage).modal.videoEmbeds
        = ["https://embed/x"]
    ∧ (closeModal envAll (openModal envAll (some recVid) initialPage)).modal.videoEmbeds
        = [] := by
  have h := open_video_then_close envAll recVid initialPage (by decide) (by decide)
    (by decide) (by decide)
  exact ⟨h.1, h.2.1.trans (by decide), h.2.2.1⟩

/-- C4: opening the modal on a non-video record sets the image source to
`hdurl`, falling back to `url`, else empty, the alt text to `title` or
its fallback, and shows the image. -/
theorem open_image_prefers_hdurl (env : DomEnv) (item : Item) (s : PageState)
    (hm : env.modal = true) (hi : env.modalImage = true)
    (hv : item.media_type ≠ some "video") :
    (openModal env (some item) s).modal.imageSrc = jsOr item.hdurl (jsOr item.url "")
    ∧ (openModal env (some item) s).modal.imageAlt = jsOr item.title "Space image"
    ∧ (openModal env (some item) s).modal.imageDisplay = "" := by
  refine ⟨?_, ?_, ?_⟩ <;> simp [openModal, hm, hi, hv]

/-- Witness for C4: for `{hdurl:"hd.jpg", url:"u.jpg"}` with no
`media_type`, the image source becomes `hd.jpg`. -/
theorem open_image_prefers_hdurl_witness :
    (openModal envAll (some recHd) initialPage).modal.imageSrc = "hd.jpg" :=
  (open_image_prefers_hdurl envAll recHd initialPage (by decide) (by decide)
    (by decide)).1.trans (by decide)

/-- C5: Escape while the modal's hidden attribute equals `"false"`
transitions it to `"true"`; Escape while it is `"true"` or never set
changes nothing at all. -/
theorem escape_key_transitions (env : DomEnv) (s : PageState) :
    (env.modal = true → s.modal.ariaHidden = some "false" →
        (onKeydown env "Escape" s).modal.ariaHidden = some "true")
    ∧ (s.modal.ariaHidden ≠ some "false" → onKeydown env "Escape" s = s) := by
  constructor
  · intro hm hv
    simp [onKeydown, hm, hv, closeModal]
  · intro hv
    simp [onKeydown, hv]

/-- Witness for C5: on a visible modal, Escape hides it; on the initial
(never-shown) modal, Escape leaves the state untouched. -/
theorem escape_key_transitions_witness :
    (onKeydown envAll "Escape" visiblePage).modal.ariaHidden = some "true"
    ∧ onKeydown envAll "Escape" initialPage = initialPage :=
  ⟨(escape_key_transitions envAll visiblePage).1 rfl rfl,
   (escape_key_transitions envAll initialPage).2 (by decide)⟩

/-- C6: a second loader invocation with a successful non-empty response
replaces everything in the gallery region with exactly the tiles of the
second response, and no loader invocation ever modifies DOM state
outside the gallery region (modal, body overflow, fact section, focus
are untouched). -/
theorem gallery_reload_replaces (r1 r2 : FetchResult) (s : PageState)
    (status : Nat) (items : List Item)
    (hr2 : r2 = .response status (.array items))
    (hok : respOk status = true) (hne : items ≠ []) :
    (getImageBtnClick true r2 (getImageBtnClick true r1 s)).gallery
      = .tileList (items.map buildTile)
    ∧ ∀ (g : Bool) (r : FetchResult) (t : PageState),
        (getImageBtnClick g r t).modal = t.modal
        ∧ (getImageBtnClick g r t).bodyOverflow = t.bodyOverflow
        ∧ (getImageBtnClick g r t).factSections = t.factSections
        ∧ (getImageBtnClick g r t).focused = t.focused := by
  subst hr2
  constructor
  · simp [getImageBtnClick, hok, List.isEmpty_iff, hne]
  · intro g r t
    refine ⟨?_, ?_, ?_, ?_⟩ <;>
      · unfold getImageBtnClick
        split
        · rfl
        · cases r with
          | failure msg => rfl
          | response st b =>
            dsimp only
            split
            · rfl
            · cases b with
              | nonArray => rfl
              | array its => dsimp only; split <;> rfl

/-- Witness for C6: an error load followed by the two-record load leaves
exactly the two tiles, and the modal state is untouched. -/
theorem gallery_reload_replaces_witness :
    (getImageBtnClick true (.response 200 (.array [recA, recB]))
        (getImageBtnClick true (.failure "network down") initialPage)).gallery
      = .tileList [buildTile recA, buildTile recB]
    ∧ (getImageBtnClick true (.failure "network down") initialPage).modal
      = initialPage.modal :=
  ⟨(gallery_reload_replaces (.failure "network down")
      (.response 200 (.array [recA, recB])) initialPage 200 [recA, recB] rfl
      (by decide) (by decide)).1,
   ((gallery_reload_replaces (.failure "network down")
      (.response 200 (.array [recA, recB])) initialPage 200 [recA, recB] rfl
      (by decide) (by decide)).2 true (.failure "network down") initialPage).1⟩

/-- C7: the modal operations are defensive no-ops: opening with no
record is a no-op for every environment, and opening with a record or
closing when the `#modal` element is absent is a no-op. -/
theorem modal_defensive_noop (env env' : DomEnv) (item : Item) (s : PageState)
    (hm : env.modal = false) :
    openModal env' none s = s
    ∧ openModal env (some item) s = s
    ∧ closeModal env s = s := by
  refine ⟨rfl, ?_, ?_⟩ <;> simp [openModal, closeModal, hm]

/-- Witness for C7: concrete no-ops with the modal element absent. -/
theorem modal_defensive_noop_witness :
    openModal envAll none initialPage = initialPage
    ∧ openModal envNoModal (some recVid) initialPage = initialPage
    ∧ closeModal envNoModal initialPage = initialPage :=
  modal_defensive_noop envNoModal envAll recVid initialPage (by decide)

/-- Every in-range index yields a fact from the list (all ten facts are
non-empty strings, so the fallback is never displayed). -/
lemma pickedFactAt_mem : ∀ i, i < 10 → pickedFactAt i ∈ spaceFacts := by decide

/-- C8: for every draw `r` in `[0,1)` the computed index
`floor(r * length)` is in range for every non-empty list length, and the
displayed fact is an element of the fact list. -/
theorem fact_picker_safe (r : ℚ) (_h0 : 0 ≤ r) (h1 : r < 1) :
    (∀ n : Nat, 0 < n → factIndex r n < n)
    ∧ factIndex r spaceFacts.length < spaceFacts.length
    ∧ pickedFact r ∈ spaceFacts := by
  have key : ∀ n : Nat, 0 < n → factIndex r n < n := by
    intro n hn
    have hnq : (0 : ℚ) < n := by exact_mod_cast hn
    have hlt : r * n < n := by
      calc r * n < 1 * n := mul_lt_mul_of_pos_right h1 hnq
        _ = n := one_mul _
    have hfl : ⌊r * (n : ℚ)⌋ < (n : ℤ) := by
      rw [Int.floor_lt]
      exact_mod_cast hlt
    unfold factIndex
    omega
  have h10 : factIndex r spaceFacts.length < 10 := key spaceFacts.length (by decide)
  exact ⟨key, h10, pickedFactAt_mem _ h10⟩

/-- Witness for C8: the draw `1/2` lands on a list element. -/
theorem fact_picker_safe_witness :
    factIndex (1/2) spaceFacts.length < spaceFacts.length
    ∧ pickedFact (1/2) ∈ spaceFacts :=
  ⟨(fact_picker_safe (1/2) (by norm_num) (by norm_num)).2.1,
   (fact_picker_safe (1/2) (by norm_num) (by norm_num)).2.2⟩

/-- C9: the fact section is created at most once — a run on a page with
no section creates exactly one, and any later run reuses the existing
first section, leaving the rest of the page structure as it was — while
the paragraph text is set to the picked fact on every run. -/
theorem fact_section_created_once (g : Bool) (r1 r2 : ℚ) (s : PageState) :
    (showRandomFact g r2 (showRandomFact g r1 s)).factSections.length
      = (showRandomFact g r1 s).factSections.length
    ∧ (s.factSections = [] → (showRandomFact g r1 s).factSections.length = 1)
    ∧ ((showRandomFact g r2 (showRandomFact g r1 s)).factSections.head?.map
         fun fs => fs.paraText) = some (some (pickedFact r2))
    ∧ ((showRandomFact g r1 s).factSections.head?.map fun fs => fs.paraText)
      = some (some (pickedFact r1))
    ∧ (showRandomFact g r2 (showRandomFact g r1 s)).factSections.tail
      = (showRandomFact g r1 s).factSections.tail
    ∧ ((showRandomFact g r2 (showRandomFact g r1 s)).factSections.head?.map
         fun fs => fs.headingText)
      = ((showRandomFact g r1 s).factSections.head?.map fun fs => fs.headingText) := by
  rcases h : s.factSections with _ | ⟨fs, rest⟩ <;>
    simp [showRandomFact, h]

/-- Witness for C9: on a fresh page the first run creates the single
fact section and a second run keeps it, updating only the text. -/
theorem fact_section_created_once_witness :
    (showRandomFact true 0 initialPage).factSections.length = 1
    ∧ (showRandomFact true (1/2) (showRandomFact true 0 initialPage)).factSections.length
      = (showRandomFact true 0 initialPage).factSections.length :=
  ⟨(fact_section_created_once true 0 (1/2) initialPage).2.1 rfl,
   (fact_section_created_once true 0 (1/2) initialPage).1⟩

/-- One modal operation preserves "at most one video embed": `openModal`
first removes the existing embed and inserts at most one new one, and
`closeModal` only removes. -/
lemma videoEmbeds_step_le_one (env : DomEnv) (s : PageState) (op : MOp)
    (h : s.modal.videoEmbeds.length ≤ 1) :
    (applyMOp env s op).modal.videoEmbeds.length ≤ 1 := by
  have ht : s.modal.videoEmbeds.tail.length = s.modal.videoEmbeds.length - 1 :=
    List.length_tail _
  cases op with
  | closeOp =>
    by_cases hm : env.modal = false
    · simpa [applyMOp, closeModal, hm] using h
    · simp [applyMOp, closeModal, hm]
      omega
  | openOp it =>
    cases it with
    | none => simpa [applyMOp, openModal] using h
    | some item =>
      by_cases hm : env.modal = false
      · simpa [applyMOp, openModal, hm] using h
      · by_cases hv : item.media_type = some "video" <;>
          by_cases hi : env.modalImage = true <;>
            simp [applyMOp, openModal, hm, hv, hi] <;> omega

/-- Running any sequence of modal operations preserves the at-most-one
video embed invariant. -/
lemma runMOps_le_one (env : DomEnv) (ops : List MOp) :
    ∀ s : PageState, s.modal.videoEmbeds.length ≤ 1 →
      (runMOps env s ops).modal.videoEmbeds.length ≤ 1 := by
  induction ops with
  | nil => intro s h; exact h
  | cons op ops ih =>
    intro s h
    exact ih _ (videoEmbeds_step_le_one env s op h)

/-- C10: after every finite sequence of `openModal` / `closeModal`
operations starting from the initial page, at most one video-embed
element exists in the document. -/
theorem video_embed_at_most_one (env : DomEnv) (ops : List MOp) :
    (runMOps env initialPage ops).modal.videoEmbeds.length ≤ 1 :=
  runMOps_le_one env ops initialPage (by decide)

end SpaceExplorer
